import Mathlib

/-!
Shallow embedding of the FCL collision-detection backend of DART
(`src/dart/collision/fcl/FCLCollisionDetector.cpp`).

Modelling conventions:
* `fcl::Vec3f` is modelled as a triple of rationals (`Vec3`); the
  floating-point comparison `v.length() < c` (with `0 ≤ c`) is encoded as
  the equivalent `‖v‖² < c²`, which keeps every guard decidable over ℚ.
* Machine-unsigned arithmetic appears only in the loop bound
  `numContacts - 1` of `postProcess`; it is modelled explicitly as
  addition of `2^64 - 1` modulo `2^64` (`usub1`).
* Pointers serve purely as identities in the C++ code (shape keys of the
  geometry cache, fcl-object keys of `mFCLCollisionObjectMap`, the user
  data back-references); they are modelled as natural-number identities.
* External collaborators (the narrow-phase primitive `fcl::collide`, the
  broad-phase manager's candidate enumeration, the shape-to-geometry
  builder) are parameters of the embedded functions.
-/

namespace DartFCL

/-- Models `fcl::Vec3f` (3-component vector). -/
structure Vec3 where
  x : ℚ
  y : ℚ
  z : ℚ
deriving DecidableEq

/-- Componentwise subtraction, `operator-` of `fcl::Vec3f`. -/
def Vec3.sub (a b : Vec3) : Vec3 :=
  ⟨a.x - b.x, a.y - b.y, a.z - b.z⟩

/-- Componentwise negation, unary `operator-` of `fcl::Vec3f`. -/
def Vec3.neg (a : Vec3) : Vec3 :=
  ⟨-a.x, -a.y, -a.z⟩

/-- Cross product, `fcl::Vec3f::cross`. -/
def Vec3.cross (a b : Vec3) : Vec3 :=
  ⟨a.y * b.z - a.z * b.y, a.z * b.x - a.x * b.z, a.x * b.y - a.y * b.x⟩

/-- Squared Euclidean norm. -/
def Vec3.sqLen (a : Vec3) : ℚ :=
  a.x * a.x + a.y * a.y + a.z * a.z

/-- `a.lengthLt c` encodes the source guard `a.length() < c` for a
nonnegative threshold `c`: since both sides are nonnegative,
`‖a‖ < c ↔ ‖a‖² < c²`, and the squared form is decidable over ℚ. -/
def Vec3.lengthLt (a : Vec3) (c : ℚ) : Bool :=
  decide (a.sqLen < c * c)

/-- The zero vector, used as the out-of-range default of list indexing. -/
def Vec3.zero : Vec3 := ⟨0, 0, 0⟩

instance : Inhabited Vec3 := ⟨Vec3.zero⟩

/-- Models `fcl::Contact`: contact position, normal, penetration depth and
the two primitive (feature) indices `b1`, `b2`. -/
structure FCLContact where
  pos : Vec3
  normal : Vec3
  penetration_depth : ℚ
  b1 : ℤ
  b2 : ℤ
deriving DecidableEq

instance : Inhabited FCLContact := ⟨⟨Vec3.zero, Vec3.zero, 0, 0, 0⟩⟩

/-- Models `fcl::CollisionResult` as the sequence of contacts it holds. -/
structure FCLCollisionResult where
  contacts : List FCLContact
deriving DecidableEq

/-- `fcl::CollisionResult::numContacts()`. -/
def FCLCollisionResult.numContacts (r : FCLCollisionResult) : Nat :=
  r.contacts.length

/-- `fcl::CollisionResult::isCollision()`: true iff at least one contact
was recorded. -/
def FCLCollisionResult.isCollision (r : FCLCollisionResult) : Bool :=
  decide (0 < r.contacts.length)

/-- `fcl::CollisionResult::getContact(i)`. -/
def FCLCollisionResult.getContact (r : FCLCollisionResult) (i : Nat) : FCLContact :=
  r.contacts.getD i default

/-- Models an `fcl::CollisionObject*` together with the DART user data that
the pipeline reads from it: `id` is the pointer identity (key of
`mFCLCollisionObjectMap`) and `userData` is the DART collision-object
identity stored in `FCLCollisionObject::UserData::mCollisionObject`. -/
structure FCLObj where
  id : Nat
  userData : Nat
deriving DecidableEq

/-- Models `dart::collision::Contact`. -/
structure Contact where
  point : Vec3
  normal : Vec3
  penetrationDepth : ℚ
  triID1 : ℤ
  triID2 : ℤ
  collisionObject1 : Nat
  collisionObject2 : Nat
deriving DecidableEq

/-- Models `dart::collision::Result` (an ordered contact sequence). -/
structure Result where
  contacts : List Contact
deriving DecidableEq

/-- `convertContact` (FCLCollisionDetector.cpp:1005-1029): the DART contact
copies position, depth and the two feature indices, NEGATES the fcl
normal, and resolves both collision-object back-references from the two
native objects' user data. -/
def convertContact (fclContact : FCLContact) (o1 o2 : FCLObj) : Contact where
  point := fclContact.pos
  normal := fclContact.normal.neg
  penetrationDepth := fclContact.penetration_depth
  triID1 := fclContact.b1
  triID2 := fclContact.b2
  collisionObject1 := o1.userData
  collisionObject2 := o2.userData

/-- The constant `ZERO = 0.000001` of `postProcess`. -/
def ZERO : ℚ := 1 / 1000000

/-- The constant `ZERO2 = ZERO*ZERO` of `postProcess`. -/
def ZERO2 : ℚ := ZERO * ZERO

/-- Modulus of `std::size_t` arithmetic (64-bit unsigned). -/
def USIZE : Nat := 2 ^ 64

/-- `numContacts - 1` computed in unsigned machine arithmetic: subtraction
of one wraps around, i.e. it adds `2^64 - 1` modulo `2^64`. -/
def usub1 (n : Nat) : Nat :=
  (n + (USIZE - 1)) % USIZE

/-- Inner loop of the duplicate-removal pass of `postProcess`
(lines 931-947): contact `i` gets marked exactly when some later contact
`j > i` lies within distance `3 * ZERO2` of it.  (The `break` after the
first marking does not change the final marks, since the pass never
clears a mark and the mark of `i` does not depend on other marks.) -/
def dupMark (ps : List Vec3) (i : Nat) : Bool :=
  (List.range ps.length).any fun j =>
    decide (i < j) &&
      ((ps.getD i default).sub (ps.getD j default)).lengthLt (3 * ZERO2)

/-- Duplicate-removal pass of `postProcess` (lines 931-947): the outer
loop runs `i` from `0` while `i < numContacts - 1`, the bound computed in
unsigned arithmetic (`usub1`); every index outside that range keeps its
initial `false` mark. -/
def dupMarks (ps : List Vec3) : List Bool :=
  (List.range ps.length).map fun i =>
    decide (i < usub1 ps.length) && dupMark ps i

/-- Inner two loops of the colinearity pass of `postProcess`
(lines 957-981) at outer index `i`, against the current marks `m`: some
unmarked `j > i` and unmarked `k > j` exist whose edge vectors from `i`
have a cross product of length below `ZERO2`.  During the processing of
outer index `i` only position `i` itself can change, so the marks read
for `j` and `k` are those current when the outer loop reaches `i`. -/
def colinearFound (ps : List Vec3) (m : List Bool) (i : Nat) : Bool :=
  (List.range ps.length).any fun j =>
    decide (i < j) && !(m.getD j false) &&
      ((List.range ps.length).any fun k =>
        decide (j < k) && !(m.getD k false) &&
          (((ps.getD i default).sub (ps.getD j default)).cross
            ((ps.getD i default).sub (ps.getD k default))).lengthLt ZERO2)

/-- One outer iteration of the colinearity pass (lines 950-982): a
marked `i` is skipped (`continue`); otherwise `i` gets marked iff a
qualifying unmarked triple exists (the `break` after marking only skips
further inner iterations, which could not unmark anything). -/
def colinearStep (ps : List Vec3) (m : List Bool) (i : Nat) : List Bool :=
  if m.getD i false then m
  else if colinearFound ps m i then m.set i true
  else m

/-- Colinearity pass of `postProcess` (lines 950-982): the outer loop
runs `i` over `0, …, numContacts - 1` in order, threading the marks. -/
def colinearMarks (ps : List Vec3) (m : List Bool) : List Bool :=
  (List.range ps.length).foldl (colinearStep ps) m

/-- `postProcess` (FCLCollisionDetector.cpp:915-992): returns immediately
when the raw narrow-phase result has no contacts; otherwise marks
near-duplicate and colinear contacts for deletion and appends every
surviving contact, converted by `convertContact`, to the DART result. -/
def postProcess (fclResult : FCLCollisionResult) (o1 o2 : FCLObj)
    (result : Result) : Result :=
  let numContacts := fclResult.numContacts
  if numContacts = 0 then result
  else
    let ps := fclResult.contacts.map FCLContact.pos
    let marks := colinearMarks ps (dupMarks ps)
    { contacts := result.contacts ++
        ((List.range numContacts).filterMap fun i =>
          if marks.getD i false then none
          else some (convertContact (fclResult.getContact i) o1 o2)) }

/-- Models `dart::collision::CollisionFilter`: the single capability
`needCollision` over the two (possibly unresolved, hence `Option`)
collision objects. -/
structure CollisionFilter where
  needCollision : Option Nat → Option Nat → Bool

/-- Models `dart::collision::Option` (named `CollisionOption` here because
`Option` is taken in Lean): maximum contact count, whether contact points
are computed, and an optional pairwise filter. -/
structure CollisionOption where
  maxNumContacts : Nat
  enableContact : Bool
  collisionFilter : Option CollisionFilter

/-- Models `fcl::CollisionRequest` restricted to the fields this pipeline
reads: `num_max_contacts`, `enable_contact` and `enable_cost`. -/
structure FCLRequest where
  num_max_contacts : Nat
  enable_contact : Bool
  enable_cost : Bool
deriving DecidableEq

/-- Default-constructed `fcl::CollisionRequest`: FCL's constructor
defaults are `num_max_contacts = 1`, `enable_contact = false`,
`enable_cost = false`. -/
def fclRequestDefault : FCLRequest :=
  ⟨1, false, false⟩

/-- `convertOption` (FCLCollisionDetector.cpp:995-1002): copies
`maxNumContacts` and `enableContact` of the DART option into the fcl
request; `enable_cost` is never written, so it keeps its default. -/
def convertOption (fclOption : CollisionOption) (request : FCLRequest) : FCLRequest :=
  { request with
      num_max_contacts := fclOption.maxNumContacts
      enable_contact := fclOption.enableContact }

/-- Models the state of `FCLCollisionDetector` read by the pipeline:
`mFCLCollisionObjectMap`, mapping fcl-object identities to DART
collision-object identities. -/
structure FCLCollisionDetector where
  objectMap : List (Nat × Nat)

/-- `FCLCollisionDetector::findCollisionObject` (lines 733-741): map
lookup returning the owning DART collision object, or null (`none`). -/
def findCollisionObject (det : FCLCollisionDetector) (o : FCLObj) : Option Nat :=
  (det.objectMap.find? fun p => p.1 == o.id).map Prod.snd

/-- Models `FCLCollisionCallbackData` (lines 87-120): the converted fcl
request, the scratch fcl result, the DART option and result (held by
pointer in C++, threaded by value here), and the early-exit `done` flag. -/
structure FCLCollisionCallbackData where
  mFclRequest : FCLRequest
  mFclResult : FCLCollisionResult
  mOption : CollisionOption
  mResult : Result
  done : Bool

/-- Constructor of `FCLCollisionCallbackData` (lines 108-119): converts
the option into the default-constructed fcl request and starts with
`done = false`. -/
def mkCallbackData (option : CollisionOption) (result : Result) :
    FCLCollisionCallbackData where
  mFclRequest := convertOption option fclRequestDefault
  mFclResult := ⟨[]⟩
  mOption := option
  mResult := result
  done := false

/-- The type of the external narrow-phase primitive `fcl::collide`:
given the two objects and the request it produces the raw collision
result (the C++ call writes into the cleared `fclResult`). -/
abbrev NarrowPhase := FCLObj → FCLObj → FCLRequest → FCLCollisionResult

/-- `collisionCallback` (FCLCollisionDetector.cpp:868-912).  Returns the
C++ return value (the stop signal handed to the broad-phase enumerator)
together with the updated callback data:
1. if `done` is already set, return `true` immediately;
2. if a filter is configured and reports the pair as not needing
   collision, skip the pair (returning the current `done`, i.e. `false`);
3. otherwise run the narrow phase, set `done` when cost computation is
   disabled in the request and the result is a collision with at least
   `num_max_contacts` contacts, then post-process into the DART result. -/
def collisionCallback (collide : NarrowPhase) (det : FCLCollisionDetector)
    (o1 o2 : FCLObj) (collData : FCLCollisionCallbackData) :
    Bool × FCLCollisionCallbackData :=
  if collData.done then (true, collData)
  else
    let skip : Bool :=
      match collData.mOption.collisionFilter with
      | some filter =>
          !(filter.needCollision (findCollisionObject det o1)
            (findCollisionObject det o2))
      | none => false
    if skip then (collData.done, collData)
    else
      let fclRequest := collData.mFclRequest
      let fclResult := collide o1 o2 fclRequest
      let done :=
        if !fclRequest.enable_cost && fclResult.isCollision &&
            decide (fclRequest.num_max_contacts ≤ fclResult.numContacts) then
          true
        else collData.done
      let result := postProcess fclResult o1 o2 collData.mResult
      (done, { collData with mFclResult := fclResult, mResult := result, done := done })

/-- Models `FCLCollisionGroup` as seen by `detect`: the type tag reported
by `getCollisionDetector()->getType()`, the member objects, and a counter
recording how many times `update()` ran (its engine-data side effect). -/
structure FCLCollisionGroup where
  detectorType : String
  objects : List FCLObj
  updateCount : Nat

/-- `CollisionGroup::update()`, modelled by its observable side effect. -/
def FCLCollisionGroup.update (g : FCLCollisionGroup) : FCLCollisionGroup :=
  { g with updateCount := g.updateCount + 1 }

/-- `FCLCollisionDetector::getTypeStatic()` (lines 687-691). -/
def getTypeStatic : String := "FCL"

/-- The broad-phase manager's `collide(callback)` loop: the external
enumerator invokes the candidate callback once per candidate pair,
threading the callback data.  The enumerator is expected to honor the
stop signal; modelling it as running over the whole list is equivalent,
because a callback invoked after `done` is set returns immediately
without changing anything. -/
def broadPhaseCollide (collide : NarrowPhase) (det : FCLCollisionDetector)
    (pairs : List (FCLObj × FCLObj)) (collData : FCLCollisionCallbackData) :
    FCLCollisionCallbackData :=
  pairs.foldl (fun cd p => (collisionCallback collide det p.1 p.2 cd).2) collData

/-- Outcome of the one-group `detect` overload: the boolean return value,
the final result, and the group as left by the call. -/
structure DetectOutcome1 where
  returned : Bool
  result : Result
  groupAfter : Option FCLCollisionGroup

/-- `FCLCollisionDetector::detect(group, option, result)`
(lines 801-824): clears the result, fails on a null group or a group of a
different detector type, otherwise updates the group and runs the
broad-phase enumeration (`pairs` models the candidate pairs the external
manager produces) and returns whether the result is non-empty. -/
def detect1 (det : FCLCollisionDetector) (collide : NarrowPhase)
    (pairs : List (FCLObj × FCLObj)) (group : Option FCLCollisionGroup)
    (option : CollisionOption) (result : Result) : DetectOutcome1 :=
  let result := { result with contacts := [] }
  match group with
  | none => ⟨false, result, none⟩
  | some g =>
    if g.detectorType ≠ getTypeStatic then ⟨false, result, some g⟩
    else
      let g := g.update
      let collData := mkCallbackData option result
      let collData := broadPhaseCollide collide det pairs collData
      ⟨!collData.mResult.contacts.isEmpty, collData.mResult, some g⟩

/-- Outcome of the two-group `detect` overload. -/
structure DetectOutcome2 where
  returned : Bool
  result : Result
  group1After : Option FCLCollisionGroup
  group2After : Option FCLCollisionGroup

/-- `FCLCollisionDetector::detect(group1, group2, option, result)`
(lines 827-861): clears the result, fails if either group is null or of a
different detector type, otherwise updates both groups and runs the
cross-group broad-phase enumeration. -/
def detect2 (det : FCLCollisionDetector) (collide : NarrowPhase)
    (pairs : List (FCLObj × FCLObj))
    (group1 group2 : Option FCLCollisionGroup)
    (option : CollisionOption) (result : Result) : DetectOutcome2 :=
  let result := { result with contacts := [] }
  match group1, group2 with
  | none, g2 => ⟨false, result, none, g2⟩
  | some g1, none => ⟨false, result, some g1, none⟩
  | some g1, some g2 =>
    if g1.detectorType ≠ getTypeStatic then ⟨false, result, some g1, some g2⟩
    else if g2.detectorType ≠ getTypeStatic then ⟨false, result, some g1, some g2⟩
    else
      let g1 := g1.update
      let g2 := g2.update
      let collData := mkCallbackData option result
      let collData := broadPhaseCollide collide det pairs collData
      ⟨!collData.mResult.contacts.isEmpty, collData.mResult, some g1, some g2⟩

/-- One entry of the geometry cache `mShapeMap`: the created geometry
(identified by the builder's output) and its reference count. -/
structure GeomEntry where
  geom : Nat
  count : Nat
deriving DecidableEq

/-- The geometry cache `mShapeMap`, keyed by shape identity (the C++ map
is keyed by `ConstShapePtr`, i.e. pointer identity, not by shape value). -/
structure ShapeMap where
  entries : List (Nat × GeomEntry)
deriving DecidableEq

/-- Map lookup `mShapeMap.find(shape)`. -/
def ShapeMap.find? (m : ShapeMap) (s : Nat) : Option GeomEntry :=
  (m.entries.find? fun p => p.1 == s).map Prod.snd

/-- In-place update of the entry of shape `s` (no-op when `s` is absent). -/
def ShapeMap.set (m : ShapeMap) (s : Nat) (e : GeomEntry) : ShapeMap :=
  ⟨m.entries.map fun p => if p.1 == s then (p.1, e) else p⟩

/-- `mShapeMap[shape] = …` insertion of a fresh entry. -/
def ShapeMap.insert (m : ShapeMap) (s : Nat) (e : GeomEntry) : ShapeMap :=
  ⟨(s, e) :: m.entries⟩

/-- `mShapeMap.erase(search)`. -/
def ShapeMap.erase (m : ShapeMap) (s : Nat) : ShapeMap :=
  ⟨m.entries.filter fun p => !(p.1 == s)⟩

/-- `FCLCollisionDetector::claimFCLCollisionGeometry`
(lines 757-781): if the shape is cached, return its geometry and bump the
count; otherwise invoke the external shape-to-geometry builder `create`
(`createFCLCollisionGeometry` in the source) and insert with count 1.
Returns the geometry handed out and the updated cache. -/
def claimFCLCollisionGeometry (create : Nat → Nat) (m : ShapeMap) (shape : Nat) :
    Nat × ShapeMap :=
  match m.find? shape with
  | some e => (e.geom, m.set shape ⟨e.geom, e.count + 1⟩)
  | none =>
      let fclCollGeom := create shape
      (fclCollGeom, m.insert shape ⟨fclCollGeom, 1⟩)

/-- `FCLCollisionDetector::reclaimFCLCollisionGeometry`
(lines 784-798): decrement the count of the shape's entry and erase the
entry when the count reaches zero.  A missing entry is a contract
violation (`assert` in the source); the model leaves the cache unchanged
in that unreachable case. -/
def reclaimFCLCollisionGeometry (m : ShapeMap) (shape : Nat) : ShapeMap :=
  match m.find? shape with
  | none => m
  | some e =>
      let count := e.count - 1
      if count = 0 then m.erase shape
      else m.set shape ⟨e.geom, count⟩

/-- `n` successive `claimFCLCollisionGeometry` calls on the same shape. -/
def claimN (create : Nat → Nat) (m : ShapeMap) (shape : Nat) : Nat → ShapeMap
  | 0 => m
  | n + 1 => claimN create ((claimFCLCollisionGeometry create m shape).2) shape n

/-- `n` successive `reclaimFCLCollisionGeometry` calls on the same shape. -/
def reclaimN (m : ShapeMap) (shape : Nat) : Nat → ShapeMap
  | 0 => m
  | n + 1 => reclaimN (reclaimFCLCollisionGeometry m shape) shape n

/-! ### Helper lemmas about the deletion-mark passes -/

lemma getD_set_self (l : List Bool) (i : Nat) (h : i < l.length) (a : Bool) :
    (l.set i a).getD i false = a := by
  simp [List.getD_eq_getElem?_getD, List.getElem?_set_self, h]

lemma getD_set_ne (l : List Bool) (i j : Nat) (hne : j ≠ i) (a : Bool) :
    (l.set i a).getD j false = l.getD j false := by
  simp [List.getD_eq_getElem?_getD, List.getElem?_set_ne (Ne.symm hne)]

lemma colinearStep_length (ps : List Vec3) (m : List Bool) (i : Nat) :
    (colinearStep ps m i).length = m.length := by
  unfold colinearStep
  split
  · rfl
  split
  · exact List.length_set m i true
  · rfl

lemma colinearStep_getD_ne (ps : List Vec3) (m : List Bool) (i w : Nat)
    (hne : w ≠ i) : (colinearStep ps m i).getD w false = m.getD w false := by
  unfold colinearStep
  split
  · rfl
  split
  · exact getD_set_ne m i w hne true
  · rfl

lemma colinearStep_mono (ps : List Vec3) (m : List Bool) (i w : Nat)
    (h : m.getD w false = true) : (colinearStep ps m i).getD w false = true := by
  by_cases hw : w = i
  · subst hw
    unfold colinearStep
    rw [if_pos h]
    exact h
  · rw [colinearStep_getD_ne ps m i w hw]
    exact h

lemma foldl_colinearStep_length (ps : List Vec3) (L : List Nat) (m : List Bool) :
    (L.foldl (colinearStep ps) m).length = m.length := by
  induction L generalizing m with
  | nil => rfl
  | cons i L ih =>
      rw [List.foldl_cons, ih, colinearStep_length]

lemma foldl_colinearStep_mono (ps : List Vec3) (L : List Nat) (m : List Bool)
    (w : Nat) (h : m.getD w false = true) :
    (L.foldl (colinearStep ps) m).getD w false = true := by
  induction L generalizing m with
  | nil => exact h
  | cons i L ih =>
      rw [List.foldl_cons]
      exact ih _ (colinearStep_mono ps m i w h)

lemma foldl_colinearStep_ne (ps : List Vec3) (L : List Nat) (m : List Bool)
    (w : Nat) (h : ∀ i ∈ L, w ≠ i) :
    (L.foldl (colinearStep ps) m).getD w false = m.getD w false := by
  induction L generalizing m with
  | nil => rfl
  | cons i L ih =>
      rw [List.foldl_cons, ih _ fun v hv => h v (List.mem_cons_of_mem i hv),
        colinearStep_getD_ne ps m i w (h i (List.mem_cons_self i L))]

lemma dupMarks_length (ps : List Vec3) : (dupMarks ps).length = ps.length := by
  unfold dupMarks
  rw [List.length_map, List.length_range]

lemma dupMarks_getD (ps : List Vec3) (i : Nat) (h : i < ps.length) :
    (dupMarks ps).getD i false =
      (decide (i < usub1 ps.length) && dupMark ps i) := by
  unfold dupMarks
  rw [List.getD_eq_getElem?_getD, List.getElem?_map, List.getElem?_range h,
    Option.map_some', Option.getD_some]

/-- `usub1` is exact subtraction on every value a `std::size_t` can take
that is at least one: no wrap-around occurs. -/
lemma usub1_eq_sub_one (n : Nat) (h1 : 1 ≤ n) (h2 : n < USIZE) :
    usub1 n = n - 1 := by
  unfold usub1
  have hU : 1 ≤ USIZE := Nat.one_le_two_pow
  generalize hu : USIZE = U at h2 hU ⊢
  have he : n + (U - 1) = (n - 1) + U := by omega
  rw [he, Nat.add_mod_right]
  exact Nat.mod_eq_of_lt (by omega)

/-- Index `i` gets marked once the outer loop of the colinearity pass
reaches it, provided a qualifying triple `(i, j, k)` exists whose later
members entered the pass unmarked: positions above the current outer
index are only ever read, never written, so `j` and `k` are still
unmarked when the triple is examined, and marks are never cleared
afterwards. -/
lemma colinearMarks_triple (ps : List Vec3) (m0 : List Bool)
    (hlen : m0.length = ps.length)
    (i j k : Nat) (hij : i < j) (hjk : j < k) (hk : k < ps.length)
    (hj0 : m0.getD j false = false) (hk0 : m0.getD k false = false)
    (hc : (((ps.getD i default).sub (ps.getD j default)).cross
          ((ps.getD i default).sub (ps.getD k default))).lengthLt ZERO2 = true) :
    (colinearMarks ps m0).getD i false = true := by
  have hj : j < ps.length := Nat.lt_trans hjk hk
  have hi : i < ps.length := Nat.lt_trans hij hj
  have hsplit : List.range ps.length =
      List.range (i + 1) ++ (List.range (ps.length - (i + 1))).map ((i + 1) + ·) := by
    rw [← List.range_add]
    congr 1
    omega
  unfold colinearMarks
  rw [hsplit, List.foldl_append]
  refine foldl_colinearStep_mono ps _ _ i ?_
  rw [List.range_succ, List.foldl_append, List.foldl_cons, List.foldl_nil]
  set mi := (List.range i).foldl (colinearStep ps) m0 with hmi
  have hmj : mi.getD j false = false := by
    rw [hmi, foldl_colinearStep_ne] ; · exact hj0
    intro v hv
    have := List.mem_range.mp hv
    omega
  have hmk : mi.getD k false = false := by
    rw [hmi, foldl_colinearStep_ne] ; · exact hk0
    intro v hv
    have := List.mem_range.mp hv
    omega
  have hmilen : mi.length = ps.length := by
    rw [hmi, foldl_colinearStep_length, hlen]
  by_cases hii : mi.getD i false = true
  · exact colinearStep_mono ps mi i i hii
  · have hfound : colinearFound ps mi i = true := by
      unfold colinearFound
      rw [List.any_eq_true]
      refine ⟨j, List.mem_range.mpr hj, ?_⟩
      have hinner : ((List.range ps.length).any fun k2 =>
          decide (j < k2) && !(mi.getD k2 false) &&
            (((ps.getD i default).sub (ps.getD j default)).cross
              ((ps.getD i default).sub (ps.getD k2 default))).lengthLt ZERO2) = true := by
        rw [List.any_eq_true]
        exact ⟨k, List.mem_range.mpr hk, by rw [hmk, hc]; simp [hjk]⟩
      rw [hmj, hinner]
      simp [hij]
    unfold colinearStep
    rw [if_neg hii, if_pos hfound]
    exact getD_set_self mi i (by rw [hmilen]; exact hi) true

lemma dupMark_of_close (ps : List Vec3) (i j : Nat) (hij : i < j)
    (hj : j < ps.length)
    (hc : ((ps.getD i default).sub (ps.getD j default)).lengthLt (3 * ZERO2) = true) :
    dupMark ps i = true := by
  unfold dupMark
  rw [List.any_eq_true]
  exact ⟨j, List.mem_range.mpr hj, by rw [hc]; simp [hij]⟩

lemma length_filterMap_lt {α β : Type} (f : α → Option β) (l : List α) (a : α)
    (ha : a ∈ l) (hf : f a = none) : (l.filterMap f).length < l.length := by
  induction l with
  | nil => cases ha
  | cons x l ih =>
    rw [List.filterMap_cons]
    rcases List.mem_cons.mp ha with rfl | ha2
    · rw [hf]
      exact Nat.lt_succ_of_le (List.length_filterMap_le f l)
    · cases hx : f x with
      | none => exact Nat.lt_succ_of_lt (ih ha2)
      | some y =>
          rw [List.length_cons, List.length_cons]
          exact Nat.succ_lt_succ (ih ha2)

/-! ### Claim theorems -/

/-- C2: in contact post-processing, for every ordered pair `(i, j)` with
`i < j` whose positions lie within the fixed small epsilon (the source
constant `3 * ZERO2`) of each other in Euclidean distance, the earlier
index `i` is marked for deletion by the duplicate-removal pass, keeping
the later one; in particular, for a raw contact set containing exactly
two contacts within epsilon of each other, exactly one contact — the
later one — is retained and appended to the result. -/
theorem duplicate_pass_marks_earlier_keeps_later :
    (∀ (ps : List Vec3) (i j : Nat), i < j → j < ps.length →
      ps.length < USIZE →
      ((ps.getD i default).sub (ps.getD j default)).lengthLt (3 * ZERO2) = true →
      (dupMarks ps).getD i false = true) ∧
    (∀ (a b : FCLContact) (o1 o2 : FCLObj) (res : Result),
      (a.pos.sub b.pos).lengthLt (3 * ZERO2) = true →
      (postProcess ⟨[a, b]⟩ o1 o2 res).contacts =
        res.contacts ++ [convertContact b o1 o2]) := by
  constructor
  · intro ps i j hij hj hU hc
    have hi : i < ps.length := Nat.lt_trans hij hj
    rw [dupMarks_getD ps i hi, dupMark_of_close ps i j hij hj hc,
      usub1_eq_sub_one ps.length (by omega) hU]
    simp only [Bool.and_true, decide_eq_true_eq]
    omega
  · intro a b o1 o2 res hclose
    have hu2 : usub1 2 = 1 := by
      rw [usub1_eq_sub_one 2 (by norm_num) (by norm_num [USIZE])]
    have hdm : dupMarks [a.pos, b.pos] = [true, false] := by
      simp [dupMarks, dupMark, List.range_succ, hu2, hclose, List.getD]
    have hcm : colinearMarks [a.pos, b.pos] [true, false] = [true, false] := by
      simp [colinearMarks, colinearStep, colinearFound, List.range_succ, List.getD]
    simp [postProcess, FCLCollisionResult.numContacts, FCLCollisionResult.getContact,
      hdm, hcm, List.range_succ, List.getD]

/-- Witness for C2: two contacts at the same position (distance `0`,
within epsilon); the duplicate pass marks index `0` and the two-contact
set retains exactly the later contact. -/
theorem duplicate_pass_marks_earlier_keeps_later_witness :
    (dupMarks [Vec3.zero, Vec3.zero]).getD 0 false = true ∧
    (postProcess ⟨[⟨Vec3.zero, ⟨0, 0, 1⟩, 1, 0, 0⟩, ⟨Vec3.zero, ⟨0, 0, 1⟩, 2, 5, 6⟩]⟩
        ⟨0, 10⟩ ⟨1, 11⟩ ⟨[]⟩).contacts =
      [] ++ [convertContact ⟨Vec3.zero, ⟨0, 0, 1⟩, 2, 5, 6⟩ ⟨0, 10⟩ ⟨1, 11⟩] :=
  ⟨duplicate_pass_marks_earlier_keeps_later.1 [Vec3.zero, Vec3.zero] 0 1
      (by decide) (by decide) (by norm_num [USIZE])
      (by norm_num [Vec3.lengthLt, Vec3.sub, Vec3.sqLen, Vec3.zero, ZERO2, ZERO,
        List.getD]),
    duplicate_pass_marks_earlier_keeps_later.2 ⟨Vec3.zero, ⟨0, 0, 1⟩, 1, 0, 0⟩
      ⟨Vec3.zero, ⟨0, 0, 1⟩, 2, 5, 6⟩ ⟨0, 10⟩ ⟨1, 11⟩ ⟨[]⟩
      (by norm_num [Vec3.lengthLt, Vec3.sub, Vec3.sqLen, Vec3.zero, ZERO2, ZERO])⟩

/-- C3: in contact post-processing, for every ordered triple `(i, j, k)`
with `i < j < k` whose later members were not marked by the duplicate
pass, if the cross product of the edge vectors from contact `i` to
contacts `j` and `k` has magnitude below the epsilon of this rule
(`ZERO2`), then the first index `i` is marked for deletion by the
colinearity pass (with no unmarked-`i` hypothesis, this is slightly
stronger than the claim, which also assumes `i` unmarked); consequently,
for a raw set of three contacts that are colinear within epsilon, at most
two contacts are retained. -/
theorem colinear_pass_marks_first_of_triple :
    (∀ (ps : List Vec3) (i j k : Nat), i < j → j < k → k < ps.length →
      (dupMarks ps).getD j false = false →
      (dupMarks ps).getD k false = false →
      (((ps.getD i default).sub (ps.getD j default)).cross
        ((ps.getD i default).sub (ps.getD k default))).lengthLt ZERO2 = true →
      (colinearMarks ps (dupMarks ps)).getD i false = true) ∧
    (∀ (a b c : FCLContact) (o1 o2 : FCLObj) (res : Result),
      ((a.pos.sub b.pos).cross (a.pos.sub c.pos)).lengthLt ZERO2 = true →
      (postProcess ⟨[a, b, c]⟩ o1 o2 res).contacts.length ≤
        res.contacts.length + 2) := by
  constructor
  · intro ps i j k hij hjk hk hj0 hk0 hc
    exact colinearMarks_triple ps (dupMarks ps) (dupMarks_length ps) i j k
      hij hjk hk hj0 hk0 hc
  · intro a b c o1 o2 res hc
    set ps : List Vec3 := [a.pos, b.pos, c.pos] with hps
    set m0 : List Bool := dupMarks ps with hm0
    have hlen3 : ps.length = 3 := rfl
    have hmarked : ∃ idx, idx < 3 ∧ (colinearMarks ps m0).getD idx false = true := by
      by_cases h0 : m0.getD 0 false = true
      · refine ⟨0, by norm_num, ?_⟩
        unfold colinearMarks
        exact foldl_colinearStep_mono ps _ m0 0 h0
      · by_cases h1 : m0.getD 1 false = true
        · refine ⟨1, by norm_num, ?_⟩
          unfold colinearMarks
          exact foldl_colinearStep_mono ps _ m0 1 h1
        · have h1f : m0.getD 1 false = false := by simpa using h1
          have h2f : m0.getD 2 false = false := by
            rw [hm0, dupMarks_getD ps 2 (by rw [hlen3]; norm_num), hlen3,
              usub1_eq_sub_one 3 (by norm_num) (by norm_num [USIZE])]
            simp
          refine ⟨0, by norm_num, ?_⟩
          refine colinearMarks_triple ps m0 (by rw [hm0, dupMarks_length]) 0 1 2
            (by norm_num) (by norm_num) (by rw [hlen3]; norm_num) h1f h2f ?_
          simpa using hc
    rcases hmarked with ⟨idx, hidx, hmk⟩
    have hout : (postProcess ⟨[a, b, c]⟩ o1 o2 res).contacts =
        res.contacts ++ ((List.range 3).filterMap fun i =>
          if (colinearMarks ps m0).getD i false then none
          else some (convertContact
            ((⟨[a, b, c]⟩ : FCLCollisionResult).getContact i) o1 o2)) := by
      rfl
    rw [hout, List.length_append]
    have hlt : ((List.range 3).filterMap fun i =>
        if (colinearMarks ps m0).getD i false then none
        else some (convertContact
          ((⟨[a, b, c]⟩ : FCLCollisionResult).getContact i) o1 o2)).length < 3 := by
      refine length_filterMap_lt _ _ idx (List.mem_range.mpr hidx) ?_
      rw [hmk]
      rfl
    omega

/-- Witness for C3: three contacts at `(0,0,0)`, `(1,0,0)`, `(2,0,0)` —
exactly colinear and pairwise far apart, so the duplicate pass marks
nothing; the colinearity pass marks index `0` and only two contacts are
retained. -/
theorem colinear_pass_marks_first_of_triple_witness :
    (colinearMarks [⟨0, 0, 0⟩, ⟨1, 0, 0⟩, ⟨2, 0, 0⟩]
      (dupMarks [⟨0, 0, 0⟩, ⟨1, 0, 0⟩, ⟨2, 0, 0⟩])).getD 0 false = true ∧
    (postProcess ⟨[⟨⟨0, 0, 0⟩, ⟨0, 0, 1⟩, 1, 0, 0⟩, ⟨⟨1, 0, 0⟩, ⟨0, 0, 1⟩, 1, 1, 1⟩,
        ⟨⟨2, 0, 0⟩, ⟨0, 0, 1⟩, 1, 2, 2⟩]⟩ ⟨0, 10⟩ ⟨1, 11⟩
      ⟨[]⟩).contacts.length ≤ (Result.mk []).contacts.length + 2 :=
  ⟨colinear_pass_marks_first_of_triple.1 [⟨0, 0, 0⟩, ⟨1, 0, 0⟩, ⟨2, 0, 0⟩] 0 1 2
      (by decide) (by decide) (by decide)
      (by norm_num [dupMarks, dupMark, List.range_succ, List.getD, usub1, USIZE,
        Vec3.lengthLt, Vec3.sub, Vec3.sqLen, ZERO2, ZERO])
      (by norm_num [dupMarks, dupMark, List.range_succ, List.getD, usub1, USIZE,
        Vec3.lengthLt, Vec3.sub, Vec3.sqLen, ZERO2, ZERO])
      (by norm_num [Vec3.lengthLt, Vec3.cross, Vec3.sub, Vec3.sqLen, List.getD,
        ZERO2, ZERO]),
    colinear_pass_marks_first_of_triple.2 ⟨⟨0, 0, 0⟩, ⟨0, 0, 1⟩, 1, 0, 0⟩
      ⟨⟨1, 0, 0⟩, ⟨0, 0, 1⟩, 1, 1, 1⟩ ⟨⟨2, 0, 0⟩, ⟨0, 0, 1⟩, 1, 2, 2⟩
      ⟨0, 10⟩ ⟨1, 11⟩ ⟨[]⟩
      (by norm_num [Vec3.lengthLt, Vec3.cross, Vec3.sub, Vec3.sqLen, ZERO2, ZERO])⟩

/-- C9: every contact appended to the detection result by contact
post-processing is the conversion of some raw narrow-phase contact: its
normal is the NEGATION of the raw contact's normal, the contact point and
penetration depth are copied unchanged, the primitive IDs are the raw
contact's two feature indices, and the two collision-object
back-references are resolved from the native objects' user data. -/
theorem postProcess_appends_converted_contacts (fclResult : FCLCollisionResult)
    (o1 o2 : FCLObj) (result : Result) :
    ∃ L, (postProcess fclResult o1 o2 result).contacts = result.contacts ++ L ∧
      ∀ c ∈ L, ∃ fc ∈ fclResult.contacts,
        c.point = fc.pos ∧ c.normal = fc.normal.neg ∧
        c.penetrationDepth = fc.penetration_depth ∧
        c.triID1 = fc.b1 ∧ c.triID2 = fc.b2 ∧
        c.collisionObject1 = o1.userData ∧ c.collisionObject2 = o2.userData := by
  simp only [postProcess]
  split
  · exact ⟨[], (List.append_nil _).symm, fun c hc => absurd hc (List.not_mem_nil c)⟩
  · refine ⟨_, rfl, ?_⟩
    intro c hc
    rcases List.mem_filterMap.mp hc with ⟨i, hi, hfi⟩
    have hilt : i < fclResult.contacts.length := List.mem_range.mp hi
    split at hfi
    · exact absurd hfi (by simp)
    · have hc2 := Option.some.inj hfi
      subst hc2
      refine ⟨fclResult.getContact i, ?_, rfl, rfl, rfl, rfl, rfl, rfl, rfl⟩
      unfold FCLCollisionResult.getContact
      rw [List.getD_eq_getElem _ _ hilt]
      exact List.getElem_mem hilt

/-- Witness for C9: one raw contact with a nonzero normal and distinct
feature indices, appended to an empty result. -/
theorem postProcess_appends_converted_contacts_witness :
    ∃ L, (postProcess ⟨[⟨Vec3.zero, ⟨0, 0, 1⟩, 1, 3, 4⟩]⟩ ⟨0, 10⟩ ⟨1, 11⟩
        ⟨[]⟩).contacts = (⟨[]⟩ : Result).contacts ++ L ∧
      ∀ c ∈ L, ∃ fc ∈ (⟨[⟨Vec3.zero, ⟨0, 0, 1⟩, 1, 3, 4⟩]⟩ :
          FCLCollisionResult).contacts,
        c.point = fc.pos ∧ c.normal = fc.normal.neg ∧
        c.penetrationDepth = fc.penetration_depth ∧
        c.triID1 = fc.b1 ∧ c.triID2 = fc.b2 ∧
        c.collisionObject1 = (⟨0, 10⟩ : FCLObj).userData ∧
        c.collisionObject2 = (⟨1, 11⟩ : FCLObj).userData :=
  postProcess_appends_converted_contacts ⟨[⟨Vec3.zero, ⟨0, 0, 1⟩, 1, 3, 4⟩]⟩
    ⟨0, 10⟩ ⟨1, 11⟩ ⟨[]⟩

/-- C10: when the raw narrow-phase contact set is empty, `postProcess`
returns immediately and appends nothing; and for every nonzero contact
count a `std::size_t` can hold, the duplicate-removal loop bound
`numContacts - 1` computed in unsigned arithmetic equals the exact
`numContacts - 1` — the wrap-around possible only for a count of zero is
made unreachable by the early return. -/
theorem postProcess_empty_early_return_and_bound_safe :
    (∀ (fclResult : FCLCollisionResult) (o1 o2 : FCLObj) (result : Result),
      fclResult.numContacts = 0 → postProcess fclResult o1 o2 result = result) ∧
    (∀ n : Nat, 1 ≤ n → n < USIZE → usub1 n = n - 1) := by
  constructor
  · intro fclResult o1 o2 result h0
    simp only [postProcess]
    split
    · rfl
    · exact absurd h0 (by assumption)
  · exact usub1_eq_sub_one

/-- Witness for C10: an empty raw result leaves a result unchanged, and
the unsigned loop bound is exact at the concrete count `7`. -/
theorem postProcess_empty_early_return_and_bound_safe_witness :
    postProcess ⟨[]⟩ ⟨0, 10⟩ ⟨1, 11⟩ ⟨[]⟩ = ⟨[]⟩ ∧ usub1 7 = 7 - 1 :=
  ⟨postProcess_empty_early_return_and_bound_safe.1 ⟨[]⟩ ⟨0, 10⟩ ⟨1, 11⟩ ⟨[]⟩ rfl,
    postProcess_empty_early_return_and_bound_safe.2 7 (by decide)
      (by norm_num [USIZE])⟩

/-- A pair rejected by the configured filter is skipped entirely: the
callback returns the current (`false`) stop signal and leaves the
callback data — in particular the accumulated result — untouched, without
consulting the narrow phase. -/
lemma collisionCallback_filtered (collide : NarrowPhase)
    (det : FCLCollisionDetector) (o1 o2 : FCLObj)
    (cd : FCLCollisionCallbackData) (f : CollisionFilter)
    (hd : cd.done = false)
    (hcf : cd.mOption.collisionFilter = some f)
    (hnc : f.needCollision (findCollisionObject det o1)
      (findCollisionObject det o2) = false) :
    collisionCallback collide det o1 o2 cd = (false, cd) := by
  unfold collisionCallback
  rw [hd, hcf]
  simp [hnc, hd]

/-- A filter that rejects every pair makes the whole broad-phase
enumeration a no-op on the callback data. -/
lemma broadPhaseCollide_allFalse (collide : NarrowPhase)
    (det : FCLCollisionDetector) (pairs : List (FCLObj × FCLObj))
    (cd : FCLCollisionCallbackData) (f : CollisionFilter)
    (hd : cd.done = false)
    (hcf : cd.mOption.collisionFilter = some f)
    (hff : ∀ a b, f.needCollision a b = false) :
    broadPhaseCollide collide det pairs cd = cd := by
  induction pairs with
  | nil => rfl
  | cons p pairs ih =>
      unfold broadPhaseCollide at ih ⊢
      rw [List.foldl_cons,
        collisionCallback_filtered collide det p.1 p.2 cd f hd hcf (hff _ _)]
      exact ih

/-- C1 (counterexample to the claim as stated): with contact-point
computation DISABLED (`enableContact = false`, propagated into the
request's `enable_contact`), a narrow-phase collision whose contact count
reaches the cap still sets the early-exit `done` flag, because the guard
in `collisionCallback` tests `!enable_cost` — cost-source computation,
which the pipeline never enables — and not `enable_contact`. -/
theorem done_flag_set_despite_contact_disabled :
    (mkCallbackData ⟨1, false, none⟩ ⟨[]⟩).mFclRequest.enable_contact = false ∧
    (mkCallbackData ⟨1, false, none⟩ ⟨[]⟩).done = false ∧
    (collisionCallback (fun _ _ _ => ⟨[⟨Vec3.zero, ⟨0, 0, 1⟩, 1, 0, 0⟩]⟩) ⟨[]⟩
      ⟨0, 10⟩ ⟨1, 11⟩ (mkCallbackData ⟨1, false, none⟩ ⟨[]⟩)).2.done = true :=
  ⟨rfl, rfl, rfl⟩

/-- C1 (amended): for a callback invocation that is not already stopped
and whose pair passes the (possibly absent) filter, the `done` flag is
set after the call exactly when the narrow-phase result is a collision
with contact count at or above the configured cap, PROVIDED cost-source
computation is disabled in the request — which always holds in this
pipeline, since the callback data constructor leaves `enable_cost` at its
`false` default; whether contact-point computation is enabled is
irrelevant to the flag. -/
theorem done_flag_iff_collision_at_cap (collide : NarrowPhase)
    (det : FCLCollisionDetector) (o1 o2 : FCLObj)
    (cd : FCLCollisionCallbackData) (option : CollisionOption) (result0 : Result)
    (hdone : cd.done = false)
    (hcost : cd.mFclRequest.enable_cost = false)
    (hfilter : ∀ f, cd.mOption.collisionFilter = some f →
      f.needCollision (findCollisionObject det o1)
        (findCollisionObject det o2) = true) :
    ((collisionCallback collide det o1 o2 cd).2.done =
      ((collide o1 o2 cd.mFclRequest).isCollision &&
        decide (cd.mFclRequest.num_max_contacts ≤
          (collide o1 o2 cd.mFclRequest).numContacts))) ∧
    (mkCallbackData option result0).mFclRequest.enable_cost = false := by
  refine ⟨?_, rfl⟩
  unfold collisionCallback
  rw [hdone]
  cases hcf : cd.mOption.collisionFilter with
  | none =>
      simp only [hcf, hcost]
      cases hb : ((collide o1 o2 cd.mFclRequest).isCollision &&
          decide (cd.mFclRequest.num_max_contacts ≤
            (collide o1 o2 cd.mFclRequest).numContacts)) <;>
        simp [hb, hdone]
  | some f =>
      simp only [hcf, hfilter f hcf, hcost]
      cases hb : ((collide o1 o2 cd.mFclRequest).isCollision &&
          decide (cd.mFclRequest.num_max_contacts ≤
            (collide o1 o2 cd.mFclRequest).numContacts)) <;>
        simp [hb, hdone]

/-- Witness for C1 (amended): a one-contact collision against a cap of
one, with no filter configured, sets the flag; the pipeline-built request
indeed has `enable_cost = false`. -/
theorem done_flag_iff_collision_at_cap_witness :
    ((collisionCallback (fun _ _ _ => ⟨[⟨Vec3.zero, ⟨0, 0, 1⟩, 1, 0, 0⟩]⟩) ⟨[]⟩
        ⟨0, 10⟩ ⟨1, 11⟩ (mkCallbackData ⟨1, true, none⟩ ⟨[]⟩)).2.done =
      (((fun (_ : FCLObj) (_ : FCLObj) (_ : FCLRequest) =>
          (⟨[⟨Vec3.zero, ⟨0, 0, 1⟩, 1, 0, 0⟩]⟩ : FCLCollisionResult)) ⟨0, 10⟩ ⟨1, 11⟩
          (mkCallbackData ⟨1, true, none⟩ ⟨[]⟩).mFclRequest).isCollision &&
        decide ((mkCallbackData ⟨1, true, none⟩ ⟨[]⟩).mFclRequest.num_max_contacts ≤
          ((fun (_ : FCLObj) (_ : FCLObj) (_ : FCLRequest) =>
            (⟨[⟨Vec3.zero, ⟨0, 0, 1⟩, 1, 0, 0⟩]⟩ : FCLCollisionResult)) ⟨0, 10⟩ ⟨1, 11⟩
            (mkCallbackData ⟨1, true, none⟩ ⟨[]⟩).mFclRequest).numContacts))) ∧
    (mkCallbackData ⟨1, true, none⟩ ⟨[]⟩).mFclRequest.enable_cost = false :=
  done_flag_iff_collision_at_cap
    (fun _ _ _ => ⟨[⟨Vec3.zero, ⟨0, 0, 1⟩, 1, 0, 0⟩]⟩) ⟨[]⟩ ⟨0, 10⟩ ⟨1, 11⟩
    (mkCallbackData ⟨1, true, none⟩ ⟨[]⟩) ⟨1, true, none⟩ ⟨[]⟩ rfl rfl
    (fun f h => Option.noConfusion h)

/-- C8: a pair for which the configured filter returns false is skipped
entirely — the callback leaves its data untouched, returns no stop
signal, and never consults the narrow-phase primitive (its output does
not depend on it); consequently a filter rejecting every pair makes
either `detect` overload produce an empty result (and return false)
regardless of geometric overlap. -/
theorem filter_skips_pair_and_all_false_filter_yields_empty :
    (∀ (collide collide' : NarrowPhase) (det : FCLCollisionDetector)
      (o1 o2 : FCLObj) (cd : FCLCollisionCallbackData) (f : CollisionFilter),
      cd.done = false →
      cd.mOption.collisionFilter = some f →
      f.needCollision (findCollisionObject det o1)
        (findCollisionObject det o2) = false →
      collisionCallback collide det o1 o2 cd = (false, cd) ∧
      collisionCallback collide det o1 o2 cd =
        collisionCallback collide' det o1 o2 cd) ∧
    (∀ (det : FCLCollisionDetector) (collide : NarrowPhase)
      (pairs : List (FCLObj × FCLObj)) (group : Option FCLCollisionGroup)
      (option : CollisionOption) (r : Result) (f : CollisionFilter),
      option.collisionFilter = some f →
      (∀ a b, f.needCollision a b = false) →
      (detect1 det collide pairs group option r).result.contacts = [] ∧
      (detect1 det collide pairs group option r).returned = false) := by
  constructor
  · intro collide collide' det o1 o2 cd f hd hcf hnc
    rw [collisionCallback_filtered collide det o1 o2 cd f hd hcf hnc,
      collisionCallback_filtered collide' det o1 o2 cd f hd hcf hnc]
    exact ⟨rfl, rfl⟩
  · intro det collide pairs group option r f hcf hff
    cases group with
    | none => exact ⟨rfl, rfl⟩
    | some g =>
        by_cases hty : g.detectorType ≠ getTypeStatic
        · constructor
          · simp [detect1, hty]
          · simp [detect1, hty]
        · have hbp := broadPhaseCollide_allFalse collide det pairs
            (mkCallbackData option ⟨[]⟩) f rfl hcf hff
          refine ⟨?_, ?_⟩ <;>
          · simp only [detect1]
            rw [if_neg hty, hbp]
            rfl

/-- Witness for C8: a callback invocation under a rejecting filter leaves
everything unchanged, and a detect call over one overlapping pair with an
all-false filter returns an empty result and false. -/
theorem filter_skips_pair_and_all_false_filter_yields_empty_witness :
    (collisionCallback (fun _ _ _ => ⟨[⟨Vec3.zero, ⟨0, 0, 1⟩, 1, 0, 0⟩]⟩) ⟨[]⟩
        ⟨0, 10⟩ ⟨1, 11⟩
        (mkCallbackData ⟨1, true, some ⟨fun _ _ => false⟩⟩ ⟨[]⟩) =
      (false, mkCallbackData ⟨1, true, some ⟨fun _ _ => false⟩⟩ ⟨[]⟩)) ∧
    (detect1 ⟨[]⟩ (fun _ _ _ => ⟨[⟨Vec3.zero, ⟨0, 0, 1⟩, 1, 0, 0⟩]⟩)
        [(⟨0, 10⟩, ⟨1, 11⟩)] (some ⟨"FCL", [⟨0, 10⟩, ⟨1, 11⟩], 0⟩)
        ⟨1, true, some ⟨fun _ _ => false⟩⟩ ⟨[]⟩).result.contacts = [] :=
  ⟨((filter_skips_pair_and_all_false_filter_yields_empty.1
      (fun _ _ _ => ⟨[⟨Vec3.zero, ⟨0, 0, 1⟩, 1, 0, 0⟩]⟩)
      (fun _ _ _ => ⟨[]⟩) ⟨[]⟩ ⟨0, 10⟩ ⟨1, 11⟩
      (mkCallbackData ⟨1, true, some ⟨fun _ _ => false⟩⟩ ⟨[]⟩)
      ⟨fun _ _ => false⟩ rfl rfl rfl).1),
    ((filter_skips_pair_and_all_false_filter_yields_empty.2 ⟨[]⟩
      (fun _ _ _ => ⟨[⟨Vec3.zero, ⟨0, 0, 1⟩, 1, 0, 0⟩]⟩)
      [(⟨0, 10⟩, ⟨1, 11⟩)] (some ⟨"FCL", [⟨0, 10⟩, ⟨1, 11⟩], 0⟩)
      ⟨1, true, some ⟨fun _ _ => false⟩⟩ ⟨[]⟩
      ⟨fun _ _ => false⟩ rfl (fun a b => rfl)).1)⟩

/-- C4: for both `detect` overloads (self-collision and cross-group) the
boolean return value is true exactly when the result's contact sequence
is non-empty at return: precondition failures and the no-collision case
are both reported as false with an empty result, so emptiness of the
result is the only reliable collision indicator. -/
theorem detect_returns_true_iff_result_nonempty :
    (∀ (det : FCLCollisionDetector) (collide : NarrowPhase)
      (pairs : List (FCLObj × FCLObj)) (group : Option FCLCollisionGroup)
      (option : CollisionOption) (r : Result),
      (detect1 det collide pairs group option r).returned =
        !(detect1 det collide pairs group option r).result.contacts.isEmpty) ∧
    (∀ (det : FCLCollisionDetector) (collide : NarrowPhase)
      (pairs : List (FCLObj × FCLObj)) (g1 g2 : Option FCLCollisionGroup)
      (option : CollisionOption) (r : Result),
      (detect2 det collide pairs g1 g2 option r).returned =
        !(detect2 det collide pairs g1 g2 option r).result.contacts.isEmpty) := by
  constructor
  · intro det collide pairs group option r
    cases group with
    | none => rfl
    | some g =>
        simp only [detect1]
        split
        · rfl
        · rfl
  · intro det collide pairs g1 g2 option r
    cases g1 with
    | none => rfl
    | some g1 =>
        cases g2 with
        | none => rfl
        | some g2 =>
            simp only [detect2]
            split
            · rfl
            split
            · rfl
            · rfl

/-- C5: each `detect` overload clears the result at entry — its outcome
never depends on the incoming result, so sequential calls cannot
accumulate contacts — and on every precondition failure (a null group, or
a group whose detector-type tag differs from this detector's) it returns
false with the cleared empty result and does no further work: the
group(s) come back unchanged (no `update`), and the constant outcome
shows no dependence on the broad-phase enumeration or the narrow phase. -/
theorem detect_clears_result_and_fails_without_work :
    (∀ (det : FCLCollisionDetector) (collide : NarrowPhase)
      (pairs : List (FCLObj × FCLObj)) (group : Option FCLCollisionGroup)
      (option : CollisionOption) (r r' : Result),
      detect1 det collide pairs group option r =
        detect1 det collide pairs group option r') ∧
    (∀ (det : FCLCollisionDetector) (collide : NarrowPhase)
      (pairs : List (FCLObj × FCLObj)) (g1 g2 : Option FCLCollisionGroup)
      (option : CollisionOption) (r r' : Result),
      detect2 det collide pairs g1 g2 option r =
        detect2 det collide pairs g1 g2 option r') ∧
    (∀ (det : FCLCollisionDetector) (collide : NarrowPhase)
      (pairs : List (FCLObj × FCLObj)) (option : CollisionOption) (r : Result),
      detect1 det collide pairs none option r = ⟨false, ⟨[]⟩, none⟩) ∧
    (∀ (det : FCLCollisionDetector) (collide : NarrowPhase)
      (pairs : List (FCLObj × FCLObj)) (g : FCLCollisionGroup)
      (option : CollisionOption) (r : Result),
      g.detectorType ≠ getTypeStatic →
      detect1 det collide pairs (some g) option r = ⟨false, ⟨[]⟩, some g⟩) ∧
    (∀ (det : FCLCollisionDetector) (collide : NarrowPhase)
      (pairs : List (FCLObj × FCLObj)) (g2 : Option FCLCollisionGroup)
      (option : CollisionOption) (r : Result),
      detect2 det collide pairs none g2 option r = ⟨false, ⟨[]⟩, none, g2⟩) ∧
    (∀ (det : FCLCollisionDetector) (collide : NarrowPhase)
      (pairs : List (FCLObj × FCLObj)) (g1 : FCLCollisionGroup)
      (option : CollisionOption) (r : Result),
      detect2 det collide pairs (some g1) none option r =
        ⟨false, ⟨[]⟩, some g1, none⟩) ∧
    (∀ (det : FCLCollisionDetector) (collide : NarrowPhase)
      (pairs : List (FCLObj × FCLObj)) (g1 g2 : FCLCollisionGroup)
      (option : CollisionOption) (r : Result),
      g1.detectorType ≠ getTypeStatic ∨ g2.detectorType ≠ getTypeStatic →
      detect2 det collide pairs (some g1) (some g2) option r =
        ⟨false, ⟨[]⟩, some g1, some g2⟩) := by
  refine ⟨fun _ _ _ _ _ _ _ => rfl, fun _ _ _ _ _ _ _ _ => rfl,
    fun _ _ _ _ _ => rfl, ?_, fun _ _ _ _ _ _ => rfl, fun _ _ _ _ _ _ => rfl, ?_⟩
  · intro det collide pairs g option r hty
    simp only [detect1]
    rw [if_pos hty]
  · intro det collide pairs g1 g2 option r hty
    by_cases h1 : g1.detectorType ≠ getTypeStatic
    · simp only [detect2]
      rw [if_pos h1]
    · have h2 : g2.detectorType ≠ getTypeStatic := by tauto
      simp only [detect2]
      rw [if_neg h1, if_pos h2]

/-- Witness for C5: a group tagged "dart" fails the type check of both
overloads, coming back unchanged beside a cleared result. -/
theorem detect_clears_result_and_fails_without_work_witness :
    detect1 ⟨[]⟩ (fun _ _ _ => ⟨[]⟩) [] (some ⟨"dart", [], 0⟩) ⟨1, true, none⟩
        ⟨[]⟩ = ⟨false, ⟨[]⟩, some ⟨"dart", [], 0⟩⟩ ∧
    detect2 ⟨[]⟩ (fun _ _ _ => ⟨[]⟩) [] (some ⟨"FCL", [], 0⟩)
        (some ⟨"dart", [], 0⟩) ⟨1, true, none⟩ ⟨[]⟩ =
      ⟨false, ⟨[]⟩, some ⟨"FCL", [], 0⟩, some ⟨"dart", [], 0⟩⟩ :=
  ⟨detect_clears_result_and_fails_without_work.2.2.2.1 ⟨[]⟩ (fun _ _ _ => ⟨[]⟩)
      [] ⟨"dart", [], 0⟩ ⟨1, true, none⟩ ⟨[]⟩ (by decide),
    detect_clears_result_and_fails_without_work.2.2.2.2.2.2 ⟨[]⟩
      (fun _ _ _ => ⟨[]⟩) [] ⟨"FCL", [], 0⟩ ⟨"dart", [], 0⟩ ⟨1, true, none⟩ ⟨[]⟩
      (Or.inr (by decide))⟩

/-! ### Helper lemmas about the geometry cache -/

lemma find?_insert_self (m : ShapeMap) (s : Nat) (e : GeomEntry) :
    (m.insert s e).find? s = some e := by
  simp [ShapeMap.insert, ShapeMap.find?]

lemma find?_insert_ne (m : ShapeMap) (s t : Nat) (e : GeomEntry) (h : s ≠ t) :
    (m.insert t e).find? s = m.find? s := by
  have ht : ((t, e).1 == s) = false := by simpa using Ne.symm h
  simp [ShapeMap.insert, ShapeMap.find?, List.find?, ht]

lemma find?_set_self (m : ShapeMap) (s : Nat) (e : GeomEntry) :
    (m.set s e).find? s = (m.find? s).map fun _ => e := by
  obtain ⟨l⟩ := m
  simp only [ShapeMap.set, ShapeMap.find?]
  induction l with
  | nil => rfl
  | cons p l ih =>
      by_cases hp : (p.1 == s) = true
      · simp [List.find?, hp]
      · have hp2 : (p.1 == s) = false := by simpa using hp
        simpa [List.find?, hp2] using ih

lemma find?_erase_self (m : ShapeMap) (s : Nat) :
    (m.erase s).find? s = none := by
  obtain ⟨l⟩ := m
  simp only [ShapeMap.erase, ShapeMap.find?]
  induction l with
  | nil => rfl
  | cons p l ih =>
      by_cases hp : (p.1 == s) = true
      · simpa [List.filter_cons, hp] using ih
      · have hp2 : (p.1 == s) = false := by simpa using hp
        simpa [List.filter_cons, hp2, List.find?] using ih

lemma claim_find_cached (create : Nat → Nat) (m : ShapeMap) (s : Nat)
    (g c : Nat) (h : m.find? s = some ⟨g, c⟩) :
    claimFCLCollisionGeometry create m s = (g, m.set s ⟨g, c + 1⟩) := by
  unfold claimFCLCollisionGeometry
  rw [h]

lemma claim_find_new (create : Nat → Nat) (m : ShapeMap) (s : Nat)
    (h : m.find? s = none) :
    claimFCLCollisionGeometry create m s =
      (create s, m.insert s ⟨create s, 1⟩) := by
  unfold claimFCLCollisionGeometry
  rw [h]

lemma claimN_find (create : Nat → Nat) (s g : Nat) :
    ∀ (n c : Nat) (m : ShapeMap), m.find? s = some ⟨g, c⟩ →
      (claimN create m s n).find? s = some ⟨g, c + n⟩ := by
  intro n
  induction n with
  | zero => intro c m h; simpa using h
  | succ n ih =>
      intro c m h
      show (claimN create ((claimFCLCollisionGeometry create m s).2) s n).find? s = _
      rw [claim_find_cached create m s g c h]
      have hfind : (m.set s ⟨g, c + 1⟩).find? s = some ⟨g, c + 1⟩ := by
        rw [find?_set_self, h]
        rfl
      have : c + (n + 1) = (c + 1) + n := by omega
      rw [this]
      exact ih (c + 1) _ hfind

lemma reclaim_find_pos (m : ShapeMap) (s g c : Nat)
    (h : m.find? s = some ⟨g, c⟩) (hc : 2 ≤ c) :
    reclaimFCLCollisionGeometry m s = m.set s ⟨g, c - 1⟩ := by
  unfold reclaimFCLCollisionGeometry
  rw [h]
  simp only []
  rw [if_neg (by omega)]

lemma reclaim_find_one (m : ShapeMap) (s g : Nat)
    (h : m.find? s = some ⟨g, 1⟩) :
    reclaimFCLCollisionGeometry m s = m.erase s := by
  unfold reclaimFCLCollisionGeometry
  rw [h]
  rfl

lemma reclaimN_find (s g : Nat) :
    ∀ (j c : Nat) (m : ShapeMap), j < c → m.find? s = some ⟨g, c⟩ →
      (reclaimN m s j).find? s = some ⟨g, c - j⟩ := by
  intro j
  induction j with
  | zero => intro c m _ h; simpa using h
  | succ j ih =>
      intro c m hj h
      show (reclaimN (reclaimFCLCollisionGeometry m s) s j).find? s = _
      rw [reclaim_find_pos m s g c h (by omega)]
      have hfind : (m.set s ⟨g, c - 1⟩).find? s = some ⟨g, c - 1⟩ := by
        rw [find?_set_self, h]
        rfl
      have : c - (j + 1) = (c - 1) - j := by omega
      rw [this]
      exact ih (c - 1) _ (by omega) hfind

lemma reclaimN_exact (s g : Nat) :
    ∀ (c : Nat) (m : ShapeMap), 1 ≤ c → m.find? s = some ⟨g, c⟩ →
      (reclaimN m s c).find? s = none := by
  intro c
  induction c with
  | zero => intro m h; omega
  | succ c ih =>
      intro m _ h
      show (reclaimN (reclaimFCLCollisionGeometry m s) s c).find? s = none
      cases c with
      | zero =>
          rw [reclaim_find_one m s g h]
          exact find?_erase_self m s
      | succ c2 =>
          rw [reclaim_find_pos m s g (c2 + 2) h (by omega)]
          refine ih _ (by omega) ?_
          rw [find?_set_self, h]
          rfl

/-- C6: for every shape `s` and every `n ≥ 1`, performing `n` acquires
(`claimFCLCollisionGeometry`) followed by `n` releases
(`reclaimFCLCollisionGeometry`) on a cache that did not hold `s` leaves
the cache with no entry for `s`; throughout the sequence the entry for
`s` exists with a positive count — count `k` after `k ≥ 1` acquires,
count `n - j` after `j < n` releases — and the entry is removed exactly
when the count reaches zero, at the final release. -/
theorem geometry_cache_refcount_symmetry (create : Nat → Nat) (m : ShapeMap)
    (s : Nat) (n k j : Nat) (h0 : m.find? s = none) (hn : 1 ≤ n)
    (hk1 : 1 ≤ k) (hkn : k ≤ n) (hjn : j < n) :
    ((reclaimN (claimN create m s n) s n).find? s = none) ∧
    ((claimN create m s k).find? s = some ⟨create s, k⟩) ∧
    ((reclaimN (claimN create m s n) s j).find? s = some ⟨create s, n - j⟩) := by
  have hafter : ∀ i : Nat, 1 ≤ i →
      (claimN create m s i).find? s = some ⟨create s, i⟩ := by
    intro i hi
    obtain ⟨i2, rfl⟩ : ∃ i2, i = i2 + 1 := ⟨i - 1, by omega⟩
    show (claimN create ((claimFCLCollisionGeometry create m s).2) s i2).find? s = _
    rw [claim_find_new create m s h0]
    have h1 : (m.insert s ⟨create s, 1⟩).find? s = some ⟨create s, 1⟩ :=
      find?_insert_self m s _
    have : i2 + 1 = 1 + i2 := by omega
    rw [this]
    exact claimN_find create s (create s) i2 1 _ h1
  refine ⟨?_, hafter k hk1, ?_⟩
  · exact reclaimN_exact s (create s) n _ hn (hafter n hn)
  · exact reclaimN_find s (create s) j n _ hjn (hafter n hn)

/-- Witness for C6: two acquires then two releases of shape `5` on an
empty cache, with intermediate states checked after one acquire and after
one release. -/
theorem geometry_cache_refcount_symmetry_witness :
    ((reclaimN (claimN (fun t => t + 100) ⟨[]⟩ 5 2) 5 2).find? 5 = none) ∧
    ((claimN (fun t => t + 100) ⟨[]⟩ 5 1).find? 5 = some ⟨(fun t => t + 100) 5, 1⟩) ∧
    ((reclaimN (claimN (fun t => t + 100) ⟨[]⟩ 5 2) 5 1).find? 5 =
      some ⟨(fun t => t + 100) 5, 2 - 1⟩) :=
  geometry_cache_refcount_symmetry (fun t => t + 100) ⟨[]⟩ 5 2 1 1 rfl
    (by decide) (by decide) (by decide) (by decide)

/-- C7: acquiring a shape already present in the cache returns the cached
geometry and increments only that entry's count, with an outcome
independent of the shape-to-geometry builder (the builder is not
consulted); acquiring an uncached shape invokes the builder and inserts
the new geometry with count one; and because the cache is keyed by shape
identity, acquiring a distinct uncached shape leaves the cached shape's
entry untouched even if the builder yields equal geometry for both. -/
theorem geometry_cache_claim_cached_and_new (create create' : Nat → Nat)
    (m : ShapeMap) (s s2 : Nat) (e : GeomEntry)
    (hcached : m.find? s = some e) (hnew : m.find? s2 = none) (hne : s ≠ s2) :
    (claimFCLCollisionGeometry create m s =
      (e.geom, m.set s ⟨e.geom, e.count + 1⟩)) ∧
    (claimFCLCollisionGeometry create m s =
      claimFCLCollisionGeometry create' m s) ∧
    (claimFCLCollisionGeometry create m s2 =
      (create s2, m.insert s2 ⟨create s2, 1⟩)) ∧
    ((claimFCLCollisionGeometry create m s2).2.find? s2 =
      some ⟨create s2, 1⟩) ∧
    ((claimFCLCollisionGeometry create m s2).2.find? s = some e) := by
  have h3 : claimFCLCollisionGeometry create m s2 =
      (create s2, m.insert s2 ⟨create s2, 1⟩) := claim_find_new create m s2 hnew
  refine ⟨?_, ?_, h3, ?_, ?_⟩
  · obtain ⟨g, c⟩ := e
    exact claim_find_cached create m s g c hcached
  · unfold claimFCLCollisionGeometry
    rw [hcached]
  · rw [h3]
    exact find?_insert_self m s2 _
  · rw [h3]
    rw [find?_insert_ne m s s2 _ hne]
    exact hcached

/-- Witness for C7: shape `5` cached with count `3`, shape `6` uncached,
and a builder that yields the same geometry `105` for both — the
entries stay separate because the key is the shape identity. -/
theorem geometry_cache_claim_cached_and_new_witness :
    (claimFCLCollisionGeometry (fun _ => 105) ⟨[(5, ⟨105, 3⟩)]⟩ 5 =
      ((105 : Nat), (⟨[(5, ⟨105, 3⟩)]⟩ : ShapeMap).set 5 ⟨105, 3 + 1⟩)) ∧
    (claimFCLCollisionGeometry (fun _ => 105) ⟨[(5, ⟨105, 3⟩)]⟩ 5 =
      claimFCLCollisionGeometry (fun t => t + 100) ⟨[(5, ⟨105, 3⟩)]⟩ 5) ∧
    (claimFCLCollisionGeometry (fun _ => 105) ⟨[(5, ⟨105, 3⟩)]⟩ 6 =
      ((fun (_ : Nat) => (105 : Nat)) 6,
        (⟨[(5, ⟨105, 3⟩)]⟩ : ShapeMap).insert 6 ⟨(fun (_ : Nat) => (105 : Nat)) 6, 1⟩)) ∧
    ((claimFCLCollisionGeometry (fun _ => 105) ⟨[(5, ⟨105, 3⟩)]⟩ 6).2.find? 6 =
      some ⟨(fun (_ : Nat) => (105 : Nat)) 6, 1⟩) ∧
    ((claimFCLCollisionGeometry (fun _ => 105) ⟨[(5, ⟨105, 3⟩)]⟩ 6).2.find? 5 =
      some ⟨105, 3⟩) :=
  geometry_cache_claim_cached_and_new (fun _ => 105) (fun t => t + 100)
    ⟨[(5, ⟨105, 3⟩)]⟩ 5 6 ⟨105, 3⟩ rfl rfl (by decide)

end DartFCL
